import Mathlib

/-!
Verification of the PR-checker GitHub Action
(`.github/actions/pr-checker/pr-checker.js` and `comment-handler.js`).

The JavaScript is shallowly embedded: regex scans are modelled as explicit
character-list scanners mirroring the JS regex semantics (leftmost match,
non-overlapping `/g` scanning, greedy classes), HTTP calls are modelled by a
`Transport` outcome parameter, and `JSON.parse` (a runtime facility, not
repository code) is modelled as a decode-oracle parameter producing a JSON
value tree.
-/

namespace PRChecker

/-- JSON-ish dynamic value, standing in for the JavaScript values that
`JSON.parse` can produce (numbers restricted to integers, which is all the
claims exercise). -/
inductive JVal where
  | jnull : JVal
  | jbool : Bool → JVal
  | jnum : Int → JVal
  | jstr : String → JVal
  | jarr : List JVal → JVal
  | jobj : List (String × JVal) → JVal

/-- Outcome of one HTTP call as the JS code observes it: `ok` with a payload,
or a failure (non-ok status / thrown transport error) carrying the status
text. -/
inductive Transport (α : Type) where
  | ok : α → Transport α
  | err : String → Transport α
deriving DecidableEq, Repr

/-- PR metadata as read from the GitHub response (`fetchPRData`),
restricted to the fields `pr-checker.js` uses.  `body` is `none` for a JSON
`null` body. -/
structure PRData where
  title : String
  body : Option String
  number : Nat
  userLogin : String
  additions : Nat
  deletions : Nat
  changed_files : Nat
deriving DecidableEq, Repr

/-- A linked issue after the mapping in `fetchIssues`. -/
structure Issue where
  number : Nat
  title : String
  body : String
  labels : List String
  state : String
  assignee : Option String
deriving DecidableEq, Repr

/-- One changed file as returned by the GitHub files endpoint, before the
mapping in `fetchPRFiles`. -/
structure RawFile where
  filename : String
  status : String
  additions : Nat
  deletions : Nat
  changes : Nat
  patch : Option String
deriving DecidableEq, Repr

/-- One changed file after the mapping in `fetchPRFiles` (patch truncated to
3000 characters). -/
structure FileChange where
  filename : String
  status : String
  additions : Nat
  deletions : Nat
  changes : Nat
  patch : Option String
deriving DecidableEq, Repr

/-- The per-file mapping performed at the end of `fetchPRFiles`. -/
def mapFile (f : RawFile) : FileChange :=
  { filename := f.filename
    status := f.status
    additions := f.additions
    deletions := f.deletions
    changes := f.changes
    patch := f.patch.map (fun p => (p.toList.take 3000).asString) }

/-! ### Character-level helpers shared by the regex models -/

/-- Value of a digit string, as `parseInt` computes it on a `\d+` capture. -/
def digitsVal (ds : List Char) : Nat :=
  ds.foldl (fun a c => a * 10 + (c.toNat - '0'.toNat)) 0

/-- The characters matched by the JS `\s` class (ASCII part). -/
def jsWS (c : Char) : Bool :=
  c = ' ' || c = '\t' || c = '\n' || c = '\r' || c = '\x0b' || c = '\x0c'

/-- The characters matched by the JS `\w` class. -/
def isWordChar (c : Char) : Bool :=
  c.isAlpha || c.isDigit || c = '_'

/-- Case-insensitive literal match of `p` against the front of `s`
(the way a case-insensitive regex matches a literal). -/
def ciStarts (p : List Char) (s : List Char) : Bool :=
  (s.take p.length).map Char.toLower == p.map Char.toLower

/-- Naive substring containment, the model of JS `String.prototype.includes`. -/
def listContains (s : List Char) (pat : List Char) : Bool :=
  match s with
  | [] => pat.isEmpty
  | _ :: tl => (s.take pat.length == pat) || listContains tl pat

/-- JS `haystack.includes(needle)`. -/
def strIncludes (haystack needle : String) : Bool :=
  listContains haystack.toList needle.toList

/-- JS `String.prototype.toLowerCase` (character-wise, ASCII-faithful). -/
def strToLower (s : String) : String :=
  (s.toList.map Char.toLower).asString

/-- JS `String.prototype.endsWith`. -/
def strEndsWith (s suffix0 : String) : Bool :=
  let cs := s.toList
  let sf := suffix0.toList
  decide (sf.length ≤ cs.length) && (cs.drop (cs.length - sf.length) == sf)

/-- JS `String.prototype.trim` on a character list (whitespace stripped
from both ends). -/
def listTrim (cs : List Char) : List Char :=
  ((cs.dropWhile jsWS).reverse.dropWhile jsWS).reverse

/-! ### The three issue-reference regex scans (`extractIssueNumbers`)

Each JS pattern is compiled with `/g`, so `exec` enumerates non-overlapping
matches left to right.  A scan step at a given text position either produces
`some (len, n)` — a match of length `len` capturing issue number `n` — or
`none`.  `scanMatches` applies the step at every position, skipping over the
matched span after a hit, and records `(position, n)` pairs. -/

/-- Worker for `scanMatches`, structurally recursive on a fuel bound (the
remaining text length; each step consumes at least one character, so fuel
`≥ text.length` never runs out). -/
def scanMatchesAux (step : List Char → Option (Nat × Nat)) :
    Nat → List Char → Nat → List (Nat × Nat)
  | 0, _, _ => []
  | _ + 1, [], _ => []
  | fuel + 1, c :: rest, i =>
    match step (c :: rest) with
    | some (len, v) => (i, v) :: scanMatchesAux step fuel (rest.drop (len - 1)) (i + len)
    | none => scanMatchesAux step fuel rest (i + 1)

/-- Enumerate the non-overlapping matches of a one-position matcher across
the text, recording start positions, like repeated `exec` on a `/g` regex. -/
def scanMatches (step : List Char → Option (Nat × Nat)) (text : List Char)
    (i : Nat) : List (Nat × Nat) :=
  scanMatchesAux step text.length text i

/-- One-position matcher for `/#(\d+)/g`: a `#` followed by at least one
digit, capturing the maximal digit run. -/
def hashStep (s : List Char) : Option (Nat × Nat) :=
  match s with
  | '#' :: tl =>
    let ds := tl.takeWhile Char.isDigit
    if ds.isEmpty then none else some (1 + ds.length, digitsVal ds)
  | _ => none

/-- The verb alternatives of `(?:fix(?:es)?|close(?:s)?|resolve(?:s)?)`,
longest variant first within each family, mirroring the greedy optional
suffix. -/
def verbForms : List (List Char) :=
  [['f','i','x','e','s'], ['f','i','x'],
   ['c','l','o','s','e','s'], ['c','l','o','s','e'],
   ['r','e','s','o','l','v','e','s'], ['r','e','s','o','l','v','e']]

/-- Case-insensitive verb match at the front of `s`, returning the number of
characters consumed. -/
def matchVerb (s : List Char) : Option Nat :=
  (verbForms.find? (fun v => ciStarts v s)).map List.length

/-- One-position matcher for the verb patterns: with `withHash` it models
`/(?:fix(?:es)?|close(?:s)?|resolve(?:s)?)\s+#(\d+)/gi`, without it the same
pattern minus the `#`. -/
def verbStep (withHash : Bool) (s : List Char) : Option (Nat × Nat) :=
  match matchVerb s with
  | none => none
  | some vlen =>
    let rest := s.drop vlen
    let ws := rest.takeWhile jsWS
    if ws.isEmpty then none
    else
      let rest2 := rest.drop ws.length
      if withHash then
        match rest2 with
        | '#' :: tl =>
          let ds := tl.takeWhile Char.isDigit
          if ds.isEmpty then none
          else some (vlen + ws.length + 1 + ds.length, digitsVal ds)
        | _ => none
      else
        let ds := rest2.takeWhile Char.isDigit
        if ds.isEmpty then none
        else some (vlen + ws.length + ds.length, digitsVal ds)

/-- All matches of the first pattern (`#(\d+)`) with their start positions. -/
def matchesHash (text : List Char) : List (Nat × Nat) :=
  scanMatches hashStep text 0

/-- All matches of the second pattern (`verb\s+#(\d+)`, case-insensitive). -/
def matchesVerbHash (text : List Char) : List (Nat × Nat) :=
  scanMatches (verbStep true) text 0

/-- All matches of the third pattern (`verb\s+(\d+)`, case-insensitive). -/
def matchesVerbNum (text : List Char) : List (Nat × Nat) :=
  scanMatches (verbStep false) text 0

/-- `Set.prototype.add` on an insertion-ordered set represented as a list. -/
def setInsert (acc : List Nat) (n : Nat) : List Nat :=
  if n ∈ acc then acc else acc ++ [n]

/-- The text `extractIssueNumbers` scans: `` `${prData.title} ${prData.body || ''}` ``. -/
def issueScanText (title : String) (body : Option String) : List Char :=
  (title ++ " " ++ body.getD "").toList

/-- `PRAnalyzer.extractIssueNumbers`: run the three patterns in order over
the title+body text and union the captured numbers into an
insertion-ordered set. -/
def extractIssueNumbers (title : String) (body : Option String) : List Nat :=
  let text := issueScanText title body
  let occ := (matchesHash text).map Prod.snd
    ++ (matchesVerbHash text).map Prod.snd
    ++ (matchesVerbNum text).map Prod.snd
  occ.foldl setInsert []

/-- Insert a position-tagged match into a position-sorted list (stable). -/
def insertByPos (x : Nat × Nat) : List (Nat × Nat) → List (Nat × Nat)
  | [] => [x]
  | y :: ys => if x.1 ≤ y.1 then x :: y :: ys else y :: insertByPos x ys

/-- Sort matches by start position (insertion sort, stable). -/
def sortByPos (l : List (Nat × Nat)) : List (Nat × Nat) :=
  l.foldr insertByPos []

/-- Modelled from the spec: "issue-number extraction returns a deduplicated
list of integers in order of first appearance in the text" — the union of
the three patterns' matches ordered by their position in the text, then
deduplicated keeping first occurrences. -/
def specFirstAppearanceOrder (title : String) (body : Option String) : List Nat :=
  let text := issueScanText title body
  let occ := matchesHash text ++ matchesVerbHash text ++ matchesVerbNum text
  ((sortByPos occ).map Prod.snd).foldl setInsert []

/-! ### `fetchIssues` and `hasMeaningfulChanges` -/

/-- `PRAnalyzer.fetchIssues`: fetch each referenced issue in order; a failed
individual fetch (modelled by the oracle returning `none`) is skipped and
the loop continues. -/
def fetchIssues (fetchIssue : Nat → Option Issue) (nums : List Nat) : List Issue :=
  nums.filterMap fetchIssue

/-- The low-signal extension list of `hasMeaningfulChanges`. -/
def skipExtensions : List String :=
  [".md", ".txt", ".gitignore", ".yml", ".yaml", ".json"]

/-- `fileChanges.reduce((sum, file) => sum + file.changes, 0)`. -/
def totalChangesOf (fileChanges : List FileChange) : Nat :=
  fileChanges.foldl (fun sum f => sum + f.changes) 0

/-- `skipExtensions.some(ext => file.filename.toLowerCase().endsWith(ext))`. -/
def isSkippableFile (f : FileChange) : Bool :=
  skipExtensions.any (fun ext => strEndsWith (strToLower f.filename) ext)

/-- The `meaningfulFiles` filter inside `hasMeaningfulChanges`. -/
def meaningfulFilesOf (fileChanges : List FileChange) : List FileChange :=
  fileChanges.filter (fun f => !isSkippableFile f || f.changes > 5)

/-- `PRAnalyzer.hasMeaningfulChanges`. -/
def hasMeaningfulChanges (fileChanges : List FileChange) : Bool :=
  if fileChanges.length = 0 then false
  else if totalChangesOf fileChanges = 0 then false
  else
    let meaningfulFiles := meaningfulFilesOf fileChanges
    decide (0 < meaningfulFiles.length) && meaningfulFiles.any (fun f => f.changes > 1)

/-! ### `performBasicAnalysis` -/

/-- The test-file detector inlined in `performBasicAnalysis`. -/
def hasTestFile (fileChanges : List FileChange) : Bool :=
  fileChanges.any fun f =>
    strIncludes f.filename "test" || strIncludes f.filename "spec" ||
    strIncludes f.filename "__tests__" || strIncludes f.filename ".test." ||
    strIncludes f.filename ".spec."

/-- The documentation-file detector inlined in `performBasicAnalysis`. -/
def hasDocFile (fileChanges : List FileChange) : Bool :=
  fileChanges.any fun f =>
    strIncludes f.filename "README" || strIncludes f.filename ".md" ||
    strIncludes f.filename "docs/" || strIncludes f.filename "documentation"

/-- The `coreFiles` detector inlined in `performBasicAnalysis`. -/
def touchesCoreFiles (fileChanges : List FileChange) : Bool :=
  fileChanges.any fun f =>
    strIncludes f.filename "config" || strIncludes f.filename "package.json" ||
    strIncludes f.filename "requirements.txt" || strIncludes f.filename "Dockerfile" ||
    strIncludes f.filename ".env"

/-- The `riskFactors` array built in `performBasicAnalysis` (pushes in source
order: size, file count, missing tests, core configuration files). -/
def riskFactorsOf (fileChanges : List FileChange) : List String :=
  (if totalChangesOf fileChanges > 500 then ["Large number of changes"] else []) ++
  (if fileChanges.length > 20 then ["Many files modified"] else []) ++
  (if !hasTestFile fileChanges then ["No test files modified"] else []) ++
  (if touchesCoreFiles fileChanges then ["Core configuration files modified"] else [])

/-- The six keywords of the with-issues heuristic. -/
def keywords : List String := ["fix", "add", "update", "implement", "create", "remove"]

/-- Result record of one analysis strategy, before `linkedIssues`/`prData`
are spread in by `analyzePR`. -/
structure Analysis where
  correctness_score : JVal
  completeness_score : JVal
  risk_level : JVal
  missing_requirements : JVal
  implementation_quality : JVal
  recommendations : JVal
  analysis_type : String
  risk_factors : Option (List String) := none
  raw_response : Option String := none

/-- `PRAnalyzer.performBasicAnalysis`.  The `changeRatio` arithmetic is done
in `ℚ` to mirror the JS floating-point division before `Math.floor` (exact
on these magnitudes). -/
def performBasicAnalysis (prData : PRData) (issues : List Issue)
    (fileChanges : List FileChange) : Analysis :=
  let totalChanges := totalChangesOf fileChanges
  let fileCount := fileChanges.length
  let hasIssues := !issues.isEmpty
  let hasTests := hasTestFile fileChanges
  let hasDocumentation := hasDocFile fileChanges
  let riskFactors := riskFactorsOf fileChanges
  let testsNote := if hasTests then "Tests included." else "No tests detected."
  let docNote := if hasDocumentation then "Documentation updated." else ""
  let scores :=
    if hasIssues then
      let issueText :=
        strToLower (String.intercalate " " (issues.map fun i => i.title ++ " " ++ i.body))
      let prText := strToLower (prData.title ++ " " ++ prData.body.getD "")
      let keywordMatches :=
        (keywords.filter fun k => strIncludes issueText k && strIncludes prText k).length
      let correctness := min 10 (max 1 (keywordMatches * 2 + (if hasTests then 2 else 0)))
      let completeness := min 10 (max 1
        ((if issues.length ≤ 2 then 8 else 6) + (if hasDocumentation then 1 else 0) +
          (if hasTests then 1 else 0)))
      let missing :=
        if riskFactors.length > 0 then "Potential concerns identified through heuristic analysis"
        else "None identified with basic analysis"
      let issueCount := issues.length
      let quality :=
        s!"Basic analysis with {issueCount} linked issues: {fileCount} files changed, {totalChanges} total changes. {testsNote} {docNote}"
      (correctness, completeness, missing, quality)
    else
      let prDescription := prData.body.getD ""
      let prTitle := prData.title
      if (listTrim prDescription.toList).isEmpty && (listTrim prTitle.toList).isEmpty then
        (3, 3, "No PR description provided to compare against code changes",
          "Cannot assess implementation quality without clear description of intended changes")
      else
        let hasDescription := prDescription.length > 50
        let titleQuality := prTitle.length > 10 && prTitle.length < 100
        let changeRatio : ℚ := min 10 ((totalChanges : ℚ) / 10)
        let correctness := min 10 (max 2
          ((if hasDescription then 4 else 2) + (if titleQuality then 2 else 0) +
            (Int.floor (changeRatio / 2)).toNat + (if hasTests then 2 else 0)))
        let completeness := min 10 (max 2
          (correctness - 1 + (if hasDocumentation then 1 else 0)))
        let missing :=
          if !hasDescription then
            "No detailed PR description provided - cannot verify if all intended changes are implemented"
          else if riskFactors.length > 0 then "Some potential concerns identified"
          else "Analysis limited without linked issues for detailed requirements"
        let descNote := if hasDescription then "PR has description." else "PR lacks detailed description."
        let quality :=
          s!"Basic analysis without linked issues: {fileCount} files changed, {totalChanges} total changes. {testsNote} {docNote} {descNote}"
        (correctness, completeness, missing, quality)
  let recommendations :=
    (if !hasTests then ["Consider adding or updating tests for the changes"] else []) ++
    (if !hasDocumentation && totalChanges > 100 then
      ["Consider updating documentation for significant changes"] else []) ++
    (if totalChanges > 300 then
      ["Consider breaking this into smaller PRs for easier review"] else []) ++
    (if riskFactors.length > 2 then
      ["High risk changes detected - consider additional review"] else []) ++
    (if !hasIssues then
      ["Consider linking related issues to provide more context for future reviews"] else []) ++
    (if !hasIssues && (prData.body.getD "").length < 50 then
      ["Consider adding a more detailed PR description explaining the purpose and scope of changes"]
     else [])
  { correctness_score := .jnum scores.1
    completeness_score := .jnum scores.2.1
    risk_level := .jstr
      (if riskFactors.length > 2 then "HIGH"
       else if riskFactors.length > 0 then "MEDIUM" else "LOW")
    missing_requirements := .jstr scores.2.2.1
    implementation_quality := .jstr scores.2.2.2
    recommendations := .jarr (recommendations.map .jstr)
    analysis_type :=
      if hasIssues then "Basic Heuristic (with Issues)"
      else "Basic Heuristic (PR Description Based)"
    risk_factors := some riskFactors }

/-! ### `analyzePR` -/

/-- The `prData` snapshot spread into the result of `analyzePR`. -/
structure PRSnapshot where
  title : String
  number : Nat
  user : String
  additions : Nat
  deletions : Nat
  changedFiles : Nat
deriving DecidableEq, Repr

/-- The successful payload of `analyzePR`: the strategy result plus
`linkedIssues` and the PR snapshot. -/
structure FullAnalysis where
  analysis : Analysis
  linkedIssues : List Nat
  prData : PRSnapshot

/-- `snapshotOf prData` is the `prData: {...}` object literal in `analyzePR`. -/
def snapshotOf (prData : PRData) : PRSnapshot :=
  { title := prData.title, number := prData.number, user := prData.userLogin,
    additions := prData.additions, deletions := prData.deletions,
    changedFiles := prData.changed_files }

/-- The canned analysis returned by the "no meaningful changes"
short-circuit in `analyzePR`. -/
def noChangesAnalysis : Analysis :=
  { correctness_score := .jstr "N/A"
    completeness_score := .jstr "N/A"
    risk_level := .jstr "LOW"
    missing_requirements := .jstr "No meaningful code changes detected"
    implementation_quality := .jstr "No substantial changes to review"
    recommendations := .jarr
      [.jstr "This PR appears to contain minimal or no code changes",
       .jstr "Consider adding meaningful changes or closing if this PR was created in error"]
    analysis_type := "No Changes Analysis" }

/-! ### Model-response parsing (`parseClaudeResponse` and helpers)

`String.prototype.match` returns the leftmost match; `firstSome` mirrors
that by trying a one-position matcher at every start position, left to
right. -/

/-- Leftmost match of a one-position matcher, like `String.prototype.match`. -/
def firstSome {α : Type} (f : List Char → Option α) : List Char → Option α
  | [] => none
  | c :: rest =>
    match f (c :: rest) with
    | some v => some v
    | none => firstSome f rest

/-- One-position matcher for `new RegExp(label + "[:\\s]*([0-9]+)", "i")`
(built from a template string, so `[:\s]*` is colon-or-whitespace):
the label literal case-insensitively, a greedy separator run, then at least
one digit; captures the digit run's value as `parseInt` would. -/
def matchLabelNum (label : List Char) (s : List Char) : Option Nat :=
  if ciStarts label s then
    let rest := s.drop label.length
    let cls := rest.takeWhile (fun c => c = ':' || jsWS c)
    let ds := (rest.drop cls.length).takeWhile Char.isDigit
    if ds.isEmpty then none else some (digitsVal ds)
  else none

/-- `PRAnalyzer.extractScore`: leftmost `LABEL[:\s]*(digits)` match, or
`null` (modelled as `none`). -/
def extractScore (text : String) (scoreType : String) : Option Nat :=
  firstSome (matchLabelNum scoreType.toList) text.toList

/-- The alternation `(LOW|MEDIUM|HIGH)`, tried left to right. -/
def riskTokens : List String := ["LOW", "MEDIUM", "HIGH"]

/-- One-position matcher for the regex literal
`/RISK_LEVEL[:\\s]*(LOW|MEDIUM|HIGH)/i` in `extractRiskLevel`.  Inside a
regex literal `\\` is an escaped backslash, so the class is the three
characters `:`, `\`, `s` (case-insensitively also `S`) — NOT
colon-or-whitespace.  Returns the captured token characters as they appear
in the text. -/
def matchRisk (s : List Char) : Option (List Char) :=
  if ciStarts "RISK_LEVEL".toList s then
    let rest := s.drop "RISK_LEVEL".toList.length
    let cls := rest.takeWhile (fun c => c = ':' || c = '\\' || c = 's' || c = 'S')
    let rest2 := rest.drop cls.length
    match riskTokens.find? (fun t => ciStarts t.toList rest2) with
    | some t => some (rest2.take t.toList.length)
    | none => none
  else none

/-- `PRAnalyzer.extractRiskLevel`: `match[1].toUpperCase()` on the leftmost
match, defaulting to `'UNKNOWN'`. -/
def extractRiskLevel (text : String) : String :=
  match firstSome matchRisk text.toList with
  | some cap => (cap.map Char.toUpper).asString
  | none => "UNKNOWN"

/-- Does a line start with `\w+:` (the negative lookahead in
`extractSection`)? -/
def startsWordColon (l : List Char) : Bool :=
  let w := l.takeWhile isWordChar
  !w.isEmpty && (l.drop w.length).head? == some ':'

/-- Worker for `takeSectionLines`, structurally recursive on a fuel bound
(the remaining text length; each iteration consumes the newline, so fuel
`≥ text.length` never runs out). -/
def takeSectionLinesAux : Nat → List Char → List Char
  | 0, _ => []
  | fuel + 1, l =>
    match l with
    | '\n' :: rest =>
      if startsWordColon rest then []
      else
        let line := rest.takeWhile (fun c => c ≠ '\n')
        '\n' :: (line ++ takeSectionLinesAux fuel (rest.drop line.length))
    | _ => []

/-- The `(?:\n(?!\w+:)[^\n]*)*` tail of the `extractSection` capture:
greedily absorb following lines that do not begin a new `word:` label. -/
def takeSectionLines (l : List Char) : List Char :=
  takeSectionLinesAux l.length l

/-- One-position matcher for
`new RegExp(section + "[:\\s]*([^\\n]*(?:\\n(?!\\w+:)[^\\n]*)*)", "i")`:
label, greedy colon-or-whitespace separator, then the capture (rest of the
line plus absorbed following lines). -/
def matchSection (label : List Char) (s : List Char) : Option (List Char) :=
  if ciStarts label s then
    let rest := s.drop label.length
    let cls := rest.takeWhile (fun c => c = ':' || jsWS c)
    let rest2 := rest.drop cls.length
    let line := rest2.takeWhile (fun c => c ≠ '\n')
    some (line ++ takeSectionLines (rest2.drop line.length))
  else none

/-- `PRAnalyzer.extractSection`: trimmed leftmost capture, or `null`
(modelled as `none`) when the label never matches. -/
def extractSection (text : String) (section0 : String) : Option String :=
  (firstSome (matchSection section0.toList) text.toList).map
    (fun cs => (listTrim cs).asString)

/-- The greedy regex `/\{[\s\S]*\}/` of `parseClaudeResponse`: the span from
the first `{` to the last `}`, provided some `}` follows the first `{`. -/
def jsonSpan (s : String) : Option String :=
  let cs := s.toList
  let rest := cs.drop ((cs.takeWhile (fun c => c ≠ '{')).length)
  match rest with
  | [] => none
  | _ :: tl =>
    if '}' ∈ tl then
      let tailLen := (tl.reverse.takeWhile (fun c => c ≠ '}')).length
      some ((rest.take (rest.length - tailLen)).asString)
    else none

/-- JavaScript truthiness of a JSON value, as `x || default` tests it. -/
def jsTruthy : JVal → Bool
  | .jnull => false
  | .jbool b => b
  | .jnum n => n != 0
  | .jstr s => s != ""
  | .jarr _ => true
  | .jobj _ => true

/-- Property read `parsed.k` on the decoded object (`none` = `undefined`). -/
def getField (obj : List (String × JVal)) (k : String) : Option JVal :=
  (obj.find? (fun p => p.1 == k)).map (fun p => p.2)

/-- `parsed.k || dflt`: the field if present and truthy, else the default. -/
def fieldOr (obj : List (String × JVal)) (k : String) (dflt : JVal) : JVal :=
  match getField obj k with
  | some v => if jsTruthy v then v else dflt
  | none => dflt

/-- The successful-decode branch of `parseClaudeResponse`: six fields with
per-field `||` defaults, non-array recommendations coerced to a one-element
array, tagged `'AI-Powered'`. -/
def primaryParse (parsed : List (String × JVal)) : Analysis :=
  { correctness_score := fieldOr parsed "correctness_score" (.jstr "N/A")
    completeness_score := fieldOr parsed "completeness_score" (.jstr "N/A")
    risk_level := fieldOr parsed "risk_level" (.jstr "UNKNOWN")
    missing_requirements := fieldOr parsed "missing_requirements" (.jstr "Unable to determine")
    implementation_quality := fieldOr parsed "implementation_quality" (.jstr "Not assessed")
    recommendations :=
      match getField parsed "recommendations" with
      | some (.jarr xs) => .jarr xs
      | some v => .jarr [if jsTruthy v then v else .jstr "No specific recommendations"]
      | none => .jarr [.jstr "No specific recommendations"]
    analysis_type := "AI-Powered" }

/-- `parseInt`-or-`null` wrapped back into a JS value. -/
def jnumOpt : Option Nat → JVal
  | some n => .jnum n
  | none => .jnull

/-- string-or-`null` wrapped back into a JS value. -/
def jstrOpt : Option String → JVal
  | some s => .jstr s
  | none => .jnull

/-- `x || dflt` on a string-or-`null` value. -/
def jsOrStr (o : Option String) (dflt : String) : String :=
  match o with
  | some s => if s = "" then dflt else s
  | none => dflt

/-- The text-parsing fallback branch of `parseClaudeResponse`. -/
def fallbackParse (response : String) : Analysis :=
  { correctness_score := jnumOpt (extractScore response "CORRECTNESS_SCORE")
    completeness_score := jnumOpt (extractScore response "COMPLETENESS_SCORE")
    risk_level := .jstr (extractRiskLevel response)
    missing_requirements := jstrOpt (extractSection response "MISSING_REQUIREMENTS")
    implementation_quality := jstrOpt (extractSection response "IMPLEMENTATION_QUALITY")
    recommendations := .jarr
      [.jstr (jsOrStr (extractSection response "RECOMMENDATIONS") "See full analysis for details")]
    analysis_type := "AI-Powered (Parsed)"
    raw_response := some ((response.toList.take 500).asString) }

/-- `PRAnalyzer.parseClaudeResponse`.  `JSON.parse` is external runtime
code, modelled by the `decode` oracle; it is consulted only when the greedy
`{...}` regex matched, and any decode failure (a thrown `SyntaxError`)
lands in the `catch`, so both no-match and decode failure take the text
fallback. -/
def parseClaudeResponse (response : String)
    (decode : String → Option (List (String × JVal))) : Analysis :=
  match jsonSpan response >>= decode with
  | some parsed => primaryParse parsed
  | none => fallbackParse response

/-! ### `analyzePR` and `main` -/

/-- `PRAnalyzer.analyzePR`.  Transport outcomes of the PR fetch, the
per-issue fetches, the files fetch and the Claude call are oracle
parameters; `.error` is the caught-exception result
`{success: false, error: …}`. -/
def analyzePR (prFetch : Transport PRData) (issueFetch : Nat → Option Issue)
    (filesFetch : Transport (List RawFile)) (hasApiKey : Bool)
    (claudeResp : Transport String)
    (decode : String → Option (List (String × JVal))) :
    Except String FullAnalysis :=
  match prFetch with
  | .err statusText => .error ("Failed to fetch PR data: " ++ statusText)
  | .ok prData =>
    let issueNumbers := extractIssueNumbers prData.title prData.body
    let issues := fetchIssues issueFetch issueNumbers
    match filesFetch with
    | .err statusText => .error ("Failed to fetch PR files: " ++ statusText)
    | .ok rawFiles =>
      let fileChanges := rawFiles.map mapFile
      if !hasMeaningfulChanges fileChanges && issueNumbers.isEmpty then
        .ok { analysis := noChangesAnalysis, linkedIssues := issueNumbers,
              prData := snapshotOf prData }
      else
        let analysis :=
          if hasApiKey then
            match claudeResp with
            | .ok text => parseClaudeResponse text decode
            | .err _ => performBasicAnalysis prData issues fileChanges
          else
            performBasicAnalysis prData issues fileChanges
        .ok { analysis := analysis, linkedIssues := issueNumbers,
              prData := snapshotOf prData }

/-- The observable outcome of `main()` after the analyzer ran: the
`::set-output` values it emits and the process exit status. -/
structure MainOutputs where
  exitCode : Nat
  outSuccess : Bool
  outRisk : JVal
  outCommentPosted : Bool

/-- `main()` after `analyzePR` returned (comment rendering omitted; it
affects no modelled output).  On `success: false` main logs failure
outputs and `return`s — it does not call `process.exit`, so the process
exit status is 0 on both paths; `process.exit(1)` is reached only from the
missing-environment check or an exception escaping `main`'s `try`. -/
def mainRun (result : Except String FullAnalysis) (shouldComment : Bool)
    (postOutcome : Bool) : MainOutputs :=
  match result with
  | .error _ =>
    { exitCode := 0, outSuccess := false, outRisk := .jstr "UNKNOWN",
      outCommentPosted := false }
  | .ok a =>
    { exitCode := 0, outSuccess := true, outRisk := a.analysis.risk_level,
      outCommentPosted := if shouldComment then postOutcome else false }

/-! ### `comment-handler.js` -/

/-- A comment as listed from the GitHub issues API, restricted to the
fields `findExistingComment` reads. -/
structure GHComment where
  id : Nat
  userType : String
  body : String
deriving DecidableEq, Repr

/-- One REST call issued by `CommentHandler`, with its request payload. -/
inductive CommentOp where
  | listComments
  | update (id : Nat) (body : String)
  | create (prNumber : Nat) (body : String)
deriving DecidableEq, Repr

/-- The predicate of `findExistingComment`: a `Bot`-type author whose body
contains the marker substring. -/
def isMarkerComment (c : GHComment) : Bool :=
  c.userType == "Bot" && strIncludes c.body "PR Issue Correctness Analysis"

/-- `CommentHandler.postOrUpdateComment`, returning the JS return value and
the trace of REST calls issued.  Transport outcomes are oracle parameters;
every thrown transport error is caught by the surrounding `try`, yielding
`false`. -/
def postOrUpdateComment (prNumber : Nat) (comment : String)
    (updateExisting : Bool) (listRes : Transport (List GHComment))
    (updRes crtRes : Transport Unit) : Bool × List CommentOp :=
  if updateExisting then
    match listRes with
    | .err _ => (false, [.listComments])
    | .ok comments =>
      match comments.find? isMarkerComment with
      | some c =>
        match updRes with
        | .ok _ => (true, [.listComments, .update c.id comment])
        | .err _ => (false, [.listComments, .update c.id comment])
      | none =>
        match crtRes with
        | .ok _ => (true, [.listComments, .create prNumber comment])
        | .err _ => (false, [.listComments, .create prNumber comment])
  else
    match crtRes with
    | .ok _ => (true, [.create prNumber comment])
    | .err _ => (false, [.create prNumber comment])

/-! ## Helper lemmas -/

theorem mem_setInsert (acc : List Nat) (x n : Nat) :
    n ∈ setInsert acc x ↔ n ∈ acc ∨ n = x := by
  unfold setInsert
  by_cases h : x ∈ acc
  · rw [if_pos h]
    constructor
    · exact Or.inl
    · rintro (hn | rfl)
      · exact hn
      · exact h
  · rw [if_neg h]
    simp [List.mem_append]

theorem mem_foldl_setInsert (xs : List Nat) (acc : List Nat) (n : Nat) :
    n ∈ xs.foldl setInsert acc ↔ n ∈ acc ∨ n ∈ xs := by
  induction xs generalizing acc with
  | nil => simp
  | cons x xs ih =>
    rw [List.foldl_cons, ih, mem_setInsert, List.mem_cons]
    tauto

theorem nodup_setInsert (acc : List Nat) (x : Nat) (h : acc.Nodup) :
    (setInsert acc x).Nodup := by
  unfold setInsert
  by_cases hx : x ∈ acc
  · rwa [if_pos hx]
  · rw [if_neg hx]
    simp [List.nodup_append, h, hx]

theorem nodup_foldl_setInsert (xs : List Nat) (acc : List Nat) (h : acc.Nodup) :
    (xs.foldl setInsert acc).Nodup := by
  induction xs generalizing acc with
  | nil => exact h
  | cons x xs ih => exact ih _ (nodup_setInsert acc x h)

theorem extractIssueNumbers_nodup (title : String) (body : Option String) :
    (extractIssueNumbers title body).Nodup :=
  nodup_foldl_setInsert _ _ List.nodup_nil

theorem mem_extractIssueNumbers (title : String) (body : Option String) (n : Nat) :
    n ∈ extractIssueNumbers title body ↔
      (n ∈ (matchesHash (issueScanText title body)).map Prod.snd ∨
       n ∈ (matchesVerbHash (issueScanText title body)).map Prod.snd ∨
       n ∈ (matchesVerbNum (issueScanText title body)).map Prod.snd) := by
  unfold extractIssueNumbers
  rw [mem_foldl_setInsert]
  simp [List.mem_append, or_assoc]

theorem listContains_append_self (a b : List Char) :
    listContains (a ++ b) b = true := by
  induction a with
  | nil =>
    cases b with
    | nil => rfl
    | cons x xs =>
      show ((x :: xs).take (x :: xs).length == x :: xs || _) = true
      rw [List.take_length, beq_self_eq_true, Bool.true_or]
  | cons x a ih =>
    show (_ || listContains (a ++ b) b) = true
    rw [ih, Bool.or_true]

/-! ## Claims -/

/-- **C3 counterexample.**  The claim says extraction returns the numbers
"in order of first appearance in the text".  On the text
`"fixes 5 and #3"` the number 5 appears first (position 6) and 3 later
(position 12), so first-appearance order is `[5, 3]`; but the code runs the
bare-`#N` pattern first over the whole text, so its `Set` receives 3 before
5 and the result is `[3, 5]`. -/
theorem extractIssueNumbers_order_cex :
    extractIssueNumbers "fixes 5 and #3" none = [3, 5] ∧
    specFirstAppearanceOrder "fixes 5 and #3" none = [5, 3] ∧
    extractIssueNumbers "fixes 5 and #3" none ≠
      specFirstAppearanceOrder "fixes 5 and #3" none := by
  refine ⟨by decide, by decide, by decide⟩

/-- **C3 (amended).**  Issue-number extraction returns a deduplicated list
— every number reachable by any of the three patterns appears exactly once
— but its order is the first-insertion order across the three sequential
pattern scans (all bare `#N` matches in text order, then the verb-`#N`
matches, then the verb-bare-number matches), not first-appearance order in
the text. -/
theorem extractIssueNumbers_dedup_union (title : String) (body : Option String) :
    (extractIssueNumbers title body).Nodup ∧
    (∀ n, n ∈ extractIssueNumbers title body ↔
      (n ∈ (matchesHash (issueScanText title body)).map Prod.snd ∨
       n ∈ (matchesVerbHash (issueScanText title body)).map Prod.snd ∨
       n ∈ (matchesVerbNum (issueScanText title body)).map Prod.snd)) ∧
    (∀ n, (extractIssueNumbers title body).count n ≤ 1) :=
  ⟨extractIssueNumbers_nodup title body,
   mem_extractIssueNumbers title body,
   fun n => List.nodup_iff_count_le_one.mp (extractIssueNumbers_nodup title body) n⟩

/-- **C1.**  Whenever `analyzePR` succeeds, the result's `linkedIssues` is
exactly (and deduplicated) the set extracted from the PR title and body —
for every outcome of the individual issue fetches, which only shape the
fetched-issue detail list. -/
theorem linkedIssues_eq_extracted (prFetch : Transport PRData)
    (issueFetch : Nat → Option Issue) (filesFetch : Transport (List RawFile))
    (hasApiKey : Bool) (claudeResp : Transport String)
    (decode : String → Option (List (String × JVal))) (a : FullAnalysis)
    (h : analyzePR prFetch issueFetch filesFetch hasApiKey claudeResp decode =
      Except.ok a) :
    ∃ pr, prFetch = Transport.ok pr ∧
      a.linkedIssues = extractIssueNumbers pr.title pr.body ∧
      a.linkedIssues.Nodup := by
  cases prFetch with
  | err st => simp [analyzePR] at h
  | ok pr =>
    refine ⟨pr, rfl, ?_⟩
    cases filesFetch with
    | err st => simp [analyzePR] at h
    | ok rawFiles =>
      simp only [analyzePR] at h
      split at h <;>
      · rw [Except.ok.injEq] at h
        subst h
        exact ⟨rfl, extractIssueNumbers_nodup pr.title pr.body⟩

/-- Concrete PR for the C1 witness: title references issue #42. -/
def prEx1 : PRData :=
  { title := "Fixes #42", body := some "", number := 7, userLogin := "octocat",
    additions := 0, deletions := 0, changed_files := 0 }

/-- The analysis `analyzePR` produces for `prEx1` when the fetch of issue
#42 fails (`issueFetch` returns `none`), the files list is empty and no
model credential is configured. -/
def aEx1 : FullAnalysis :=
  { analysis := performBasicAnalysis prEx1 [] []
    linkedIssues := extractIssueNumbers prEx1.title prEx1.body
    prData := snapshotOf prEx1 }

/-- **C1 witness**: a run in which the individual fetch of issue #42 fails
still reports `linkedIssues = [42]`. -/
theorem linkedIssues_eq_extracted_witness :
    aEx1.linkedIssues = extractIssueNumbers prEx1.title prEx1.body ∧
    aEx1.linkedIssues.Nodup ∧ aEx1.linkedIssues = [42] := by
  obtain ⟨pr, hpr, h1, h2⟩ :=
    linkedIssues_eq_extracted (.ok prEx1) (fun _ => none) (.ok []) false
      (.err "boom") (fun _ => none) aEx1 rfl
  cases hpr
  exact ⟨h1, h2, by decide⟩

theorem performBasic_type_ne (pr : PRData) (issues : List Issue)
    (files : List FileChange) :
    (performBasicAnalysis pr issues files).analysis_type ≠ "No Changes Analysis" := by
  have h : (performBasicAnalysis pr issues files).analysis_type =
      if !issues.isEmpty then "Basic Heuristic (with Issues)"
      else "Basic Heuristic (PR Description Based)" := rfl
  rw [h]
  split <;> decide

theorem parse_type_cases (response : String)
    (decode : String → Option (List (String × JVal))) :
    (parseClaudeResponse response decode).analysis_type = "AI-Powered" ∨
    (parseClaudeResponse response decode).analysis_type = "AI-Powered (Parsed)" := by
  rcases hsp : jsonSpan response >>= decode with _ | p <;>
    simp [parseClaudeResponse, hsp, primaryParse, fallbackParse]

theorem parse_type_ne (response : String)
    (decode : String → Option (List (String × JVal))) :
    (parseClaudeResponse response decode).analysis_type ≠ "No Changes Analysis" := by
  rcases parse_type_cases response decode with h | h <;> rw [h] <;> decide

theorem hasMeaningful_iff (files : List FileChange) :
    hasMeaningfulChanges files = true ↔
      (files ≠ [] ∧ totalChangesOf files ≠ 0 ∧
        ∃ f ∈ meaningfulFilesOf files, f.changes > 1) := by
  unfold hasMeaningfulChanges
  split_ifs with h1 h2
  · have hnil : files = [] := List.length_eq_zero.mp h1
    simp [hnil]
  · simp [h2]
  · simp only [Bool.and_eq_true, decide_eq_true_eq, List.any_eq_true]
    constructor
    · rintro ⟨-, f, hf, hc⟩
      exact ⟨fun hnil => h1 (by simp [hnil]), h2, f, hf, by simpa using hc⟩
    · rintro ⟨-, -, f, hf, hc⟩
      exact ⟨List.length_pos.mpr (List.ne_nil_of_mem hf), f, hf, by simpa using hc⟩

/-- Concrete PR for the C2 counterexample: no issue references. -/
def prEx2 : PRData :=
  { title := "x", body := some "", number := 1, userLogin := "u",
    additions := 1, deletions := 0, changed_files := 1 }

/-- One changed non-low-signal file with exactly one changed line. -/
def filesEx2 : List RawFile :=
  [{ filename := "a.js", status := "modified", additions := 1, deletions := 0,
     changes := 1, patch := none }]

/-- **C2 counterexample.**  The claim says the short-circuit fires iff total
changed lines = 0 or the low-signal-filtered file set is empty.  With one
`.js` file of exactly 1 changed line (and no linked issues) the
short-circuit fires although the total is 1 ≠ 0 and the filtered set is
non-empty: the code additionally requires some filtered file with more
than 1 changed line. -/
theorem noChanges_shortCircuit_cex :
    ((analyzePR (.ok prEx2) (fun _ => none) (.ok filesEx2) false (.err "")
        (fun _ => none)).toOption.map (fun a => a.analysis.analysis_type)) =
      some "No Changes Analysis" ∧
    totalChangesOf (filesEx2.map mapFile) = 1 ∧
    meaningfulFilesOf (filesEx2.map mapFile) ≠ [] := by
  refine ⟨rfl, by decide, by decide⟩

/-- **C2 (amended).**  The short-circuit fires iff no issue numbers were
extracted AND the changes are not meaningful, where meaningful means: the
file list is non-empty, total changed lines ≠ 0, and some
low-signal-filtered file has more than 1 changed line; whenever it fires,
the returned analysis is exactly the canned record with both scores the
`'N/A'` sentinel and risk exactly `'LOW'` (neither the model nor heuristic
scoring ran: the analysis is the canned one, whose type tag no other
strategy produces). -/
theorem noChanges_shortCircuit_characterization
    (pr : PRData) (issueFetch : Nat → Option Issue) (rawFiles : List RawFile)
    (hasApiKey : Bool) (claudeResp : Transport String)
    (decode : String → Option (List (String × JVal))) :
    (analyzePR (.ok pr) issueFetch (.ok rawFiles) hasApiKey claudeResp decode =
        Except.ok { analysis := noChangesAnalysis,
                    linkedIssues := extractIssueNumbers pr.title pr.body,
                    prData := snapshotOf pr }
      ↔ (extractIssueNumbers pr.title pr.body = [] ∧
          hasMeaningfulChanges (rawFiles.map mapFile) = false)) ∧
    (hasMeaningfulChanges (rawFiles.map mapFile) = true ↔
      (rawFiles.map mapFile ≠ [] ∧
        totalChangesOf (rawFiles.map mapFile) ≠ 0 ∧
        ∃ f ∈ meaningfulFilesOf (rawFiles.map mapFile), f.changes > 1)) ∧
    noChangesAnalysis.correctness_score = JVal.jstr "N/A" ∧
    noChangesAnalysis.completeness_score = JVal.jstr "N/A" ∧
    noChangesAnalysis.risk_level = JVal.jstr "LOW" := by
  refine ⟨?_, hasMeaningful_iff _, rfl, rfl, rfl⟩
  constructor
  · intro h
    by_cases hc : (!hasMeaningfulChanges (rawFiles.map mapFile) &&
        (extractIssueNumbers pr.title pr.body).isEmpty) = true
    · rw [Bool.and_eq_true, Bool.not_eq_true'] at hc
      exact ⟨by simpa using hc.2, hc.1⟩
    · exfalso
      simp only [analyzePR] at h
      rw [if_neg hc] at h
      rw [Except.ok.injEq, FullAnalysis.mk.injEq] at h
      obtain ⟨ha, -, -⟩ := h
      have hty := congrArg Analysis.analysis_type ha
      cases hasApiKey with
      | false => exact performBasic_type_ne _ _ _ (by simpa using hty)
      | true =>
        cases claudeResp with
        | ok text =>
          exact parse_type_ne _ _ (by simpa using hty)
        | err e =>
          exact performBasic_type_ne _ _ _ (by simpa using hty)
  · rintro ⟨h1, h2⟩
    simp [analyzePR, h1, h2]

/-- The `keywordMatches` count of the with-issues heuristic: how many of the
six keywords occur (case-insensitively) in both the concatenated issue text
and the concatenated PR text. -/
def keywordMatchCount (pr : PRData) (issues : List Issue) : Nat :=
  (keywords.filter fun k =>
    strIncludes
      (strToLower (String.intercalate " " (issues.map fun i => i.title ++ " " ++ i.body))) k &&
    strIncludes (strToLower (pr.title ++ " " ++ pr.body.getD "")) k).length

/-- Modelled from the spec: `clamp(0,10,x)`, the clamp the claim asserts
for the heuristic scores. -/
def specClamp0 (x : Nat) : Nat := min 10 (max 0 x)

/-- Issue list for the C4 counterexample: no keyword in common with the PR. -/
def issuesC4 : List Issue :=
  [{ number := 1, title := "zzz", body := "", labels := [], state := "open",
     assignee := none }]

/-- PR for the C4 counterexample: no keywords, no files, no tests. -/
def prC4 : PRData :=
  { title := "yyy", body := some "", number := 1, userLogin := "u",
    additions := 0, deletions := 0, changed_files := 0 }

/-- **C4 counterexample.**  With one linked issue, zero shared keywords and
no test files, the claim's formula `clamp(0,10, 2×matches + testBonus)`
yields 0, but the code computes `Math.min(10, Math.max(1, …))` — a lower
clamp of 1 — and returns correctness 1. -/
theorem basic_correctness_clamp_cex :
    (performBasicAnalysis prC4 issuesC4 []).correctness_score = JVal.jnum 1 ∧
    specClamp0 (2 * keywordMatchCount prC4 issuesC4 +
      (if hasTestFile [] then 2 else 0)) = 0 :=
  ⟨rfl, by decide⟩

/-- **C4 (amended).**  With at least one fetched linked issue the heuristic
scores are `min(10, max(1, 2×keywordMatches + 2·[tests touched]))` and
`min(10, max(1, (8 if ≤2 issues else 6) + [docs] + [tests]))` — the lower
clamp bound is 1, not the claimed 0 — and both scores always lie in
`[1,10]` (hence within the documented 0–10 bounds) regardless of input
magnitude. -/
theorem basic_scores_formula (pr : PRData) (issues : List Issue)
    (files : List FileChange) (h : issues ≠ []) :
    (performBasicAnalysis pr issues files).correctness_score =
      JVal.jnum ((min 10 (max 1 (2 * keywordMatchCount pr issues +
        (if hasTestFile files then 2 else 0))) : ℕ) : ℤ) ∧
    (performBasicAnalysis pr issues files).completeness_score =
      JVal.jnum ((min 10 (max 1 ((if issues.length ≤ 2 then 8 else 6) +
        (if hasDocFile files then 1 else 0) + (if hasTestFile files then 1 else 0))) : ℕ) : ℤ) ∧
    1 ≤ min 10 (max 1 (2 * keywordMatchCount pr issues +
        (if hasTestFile files then 2 else 0))) ∧
    min 10 (max 1 (2 * keywordMatchCount pr issues +
        (if hasTestFile files then 2 else 0))) ≤ 10 ∧
    1 ≤ min 10 (max 1 ((if issues.length ≤ 2 then 8 else 6) +
        (if hasDocFile files then 1 else 0) + (if hasTestFile files then 1 else 0))) ∧
    min 10 (max 1 ((if issues.length ≤ 2 then 8 else 6) +
        (if hasDocFile files then 1 else 0) + (if hasTestFile files then 1 else 0))) ≤ 10 := by
  cases issues with
  | nil => exact absurd rfl h
  | cons i is =>
    have e1 : (performBasicAnalysis pr (i :: is) files).correctness_score =
        JVal.jnum ((min 10 (max 1 (keywordMatchCount pr (i :: is) * 2 +
          (if hasTestFile files then 2 else 0))) : ℕ) : ℤ) := rfl
    rw [Nat.mul_comm (keywordMatchCount pr (i :: is)) 2] at e1
    have e2 : (performBasicAnalysis pr (i :: is) files).completeness_score =
        JVal.jnum ((min 10 (max 1 ((if (i :: is).length ≤ 2 then 8 else 6) +
          (if hasDocFile files then 1 else 0) +
          (if hasTestFile files then 1 else 0))) : ℕ) : ℤ) := rfl
    exact ⟨e1, e2, by omega, by omega, by omega, by omega⟩

/-- Issue list for the C4 witness: shares the keyword `fix` with the PR. -/
def issuesEx4 : List Issue :=
  [{ number := 3, title := "fix the parser crash", body := "crash on empty input",
     labels := [], state := "open", assignee := none }]

/-- PR for the C4 witness. -/
def prEx4 : PRData :=
  { title := "fix crash", body := some "this will fix it", number := 2,
    userLogin := "u", additions := 10, deletions := 0, changed_files := 1 }

/-- Changed files for the C4 witness: one test file. -/
def filesEx4 : List FileChange :=
  [{ filename := "src/parser.test.js", status := "modified", additions := 10,
     deletions := 0, changes := 10, patch := none }]

/-- **C4 witness**: one linked issue sharing the keyword `fix`, a test file
touched — correctness `min(10, max(1, 2·1 + 2)) = 4`, completeness
`min(10, max(1, 8 + 0 + 1)) = 9`. -/
theorem basic_scores_formula_witness :
    (performBasicAnalysis prEx4 issuesEx4 filesEx4).correctness_score = JVal.jnum 4 ∧
    (performBasicAnalysis prEx4 issuesEx4 filesEx4).completeness_score = JVal.jnum 9 := by
  obtain ⟨h1, h2, -, -, -, -⟩ :=
    basic_scores_formula prEx4 issuesEx4 filesEx4 (by decide)
  exact ⟨h1.trans (congrArg JVal.jnum (by decide)),
         h2.trans (congrArg JVal.jnum (by decide))⟩

/-- **C6 (code bug).**  In `extractRiskLevel` the separator class is
written inside a regex literal as `[:\\s]`, which denotes the three
characters `:`, `\`, `s` — not colon-or-whitespace as in the sibling
`extractScore` (which builds the same source text through a template
string).  Hence the documented `RISK_LEVEL: LOW` (with a space) does NOT
match and falls to `'UNKNOWN'`, while a space-less `RISK_LEVEL:LOW` matches
and a lower-case value is uppercased as specified. -/
theorem extractRiskLevel_space_bug :
    extractRiskLevel "RISK_LEVEL: LOW" = "UNKNOWN" ∧
    extractRiskLevel "RISK_LEVEL:LOW" = "LOW" ∧
    extractRiskLevel "RISK_LEVEL:medium" = "MEDIUM" ∧
    extractRiskLevel "no risk label" = "UNKNOWN" :=
  ⟨rfl, rfl, rfl, rfl⟩

/-- The number of the four risk factors that hold (total changed lines >
500; more than 20 files; no test file touched; a config-like path
touched). -/
def riskFactorCount (files : List FileChange) : Nat :=
  (if totalChangesOf files > 500 then 1 else 0) +
  (if files.length > 20 then 1 else 0) +
  (if !hasTestFile files then 1 else 0) +
  (if touchesCoreFiles files then 1 else 0)

theorem riskFactorsOf_length (files : List FileChange) :
    (riskFactorsOf files).length = riskFactorCount files := by
  unfold riskFactorsOf riskFactorCount
  split_ifs <;> rfl

/-- **C7.**  The heuristic risk level is `HIGH` iff more than 2 of the four
risk factors hold, `MEDIUM` iff exactly 1 or 2 hold, and `LOW` iff none
hold. -/
theorem risk_level_thresholds (pr : PRData) (issues : List Issue)
    (files : List FileChange) :
    ((performBasicAnalysis pr issues files).risk_level = JVal.jstr "HIGH" ↔
      2 < riskFactorCount files) ∧
    ((performBasicAnalysis pr issues files).risk_level = JVal.jstr "MEDIUM" ↔
      (1 ≤ riskFactorCount files ∧ riskFactorCount files ≤ 2)) ∧
    ((performBasicAnalysis pr issues files).risk_level = JVal.jstr "LOW" ↔
      riskFactorCount files = 0) := by
  have hr : (performBasicAnalysis pr issues files).risk_level =
      JVal.jstr (if (riskFactorsOf files).length > 2 then "HIGH"
        else if (riskFactorsOf files).length > 0 then "MEDIUM" else "LOW") := rfl
  rw [hr, riskFactorsOf_length]
  obtain h | h | h : riskFactorCount files = 0 ∨
      (1 ≤ riskFactorCount files ∧ riskFactorCount files ≤ 2) ∨
      2 < riskFactorCount files := by omega
  · rw [if_neg (by omega), if_neg (by omega)]
    exact ⟨⟨fun hx => absurd (JVal.jstr.inj hx) (by decide), fun hx => absurd hx (by omega)⟩,
           ⟨fun hx => absurd (JVal.jstr.inj hx) (by decide), fun hx => absurd hx (by omega)⟩,
           ⟨fun _ => h, fun _ => rfl⟩⟩
  · rw [if_neg (by omega), if_pos (by omega)]
    exact ⟨⟨fun hx => absurd (JVal.jstr.inj hx) (by decide), fun hx => absurd hx (by omega)⟩,
           ⟨fun _ => h, fun _ => rfl⟩,
           ⟨fun hx => absurd (JVal.jstr.inj hx) (by decide), fun hx => absurd hx (by omega)⟩⟩
  · rw [if_pos (by omega)]
    exact ⟨⟨fun _ => h, fun _ => rfl⟩,
           ⟨fun hx => absurd (JVal.jstr.inj hx) (by decide), fun hx => absurd hx (by omega)⟩,
           ⟨fun hx => absurd (JVal.jstr.inj hx) (by decide), fun hx => absurd hx (by omega)⟩⟩

theorem fieldOr_truthy (obj : List (String × JVal)) (k : String) (d v : JVal)
    (hv : getField obj k = some v) (ht : jsTruthy v = true) :
    fieldOr obj k d = v := by
  unfold fieldOr
  rw [hv]
  simp [ht]

theorem fieldOr_falsy (obj : List (String × JVal)) (k : String) (d : JVal)
    (hall : (getField obj k).all (fun v => !jsTruthy v) = true) :
    fieldOr obj k d = d := by
  unfold fieldOr
  cases hg : getField obj k with
  | none => rfl
  | some v =>
    rw [hg] at hall
    have hfalse : jsTruthy v = false := by
      simpa [Option.all] using hall
    simp [hfalse]

/-- Decoded object for the C5 counterexample: all six fields present and
conforming, with the legitimate score value 0. -/
def objC5 : List (String × JVal) :=
  [("correctness_score", .jnum 0), ("completeness_score", .jnum 5),
   ("risk_level", .jstr "LOW"), ("missing_requirements", .jstr "None identified"),
   ("implementation_quality", .jstr "good"), ("recommendations", .jarr [.jstr "r"])]

/-- **C5 counterexample.**  The claim says defaults are substituted only
for missing or non-conforming fields.  But the code reads each field as
`parsed.field || default`, so the present, conforming score value `0`
(JS-falsy) is replaced by the `'N/A'` default. -/
theorem primary_parse_falsy_default_cex :
    (parseClaudeResponse "{}"
        (fun _ => some objC5)).correctness_score = JVal.jstr "N/A" ∧
    getField objC5 "correctness_score" = some (JVal.jnum 0) ∧
    JVal.jstr "N/A" ≠ JVal.jnum 0 :=
  ⟨rfl, rfl, fun hx => nomatch hx⟩

/-- **C5 (amended).**  Whenever the raw response contains a decodable
`{...}` payload, the parser takes the primary path and tags the result
model-based (`'AI-Powered'`); each of the six fields is taken as given when
present and JS-truthy, and replaced by its per-field default when missing
OR JS-falsy (so the conforming values `0` and `""` are also replaced);
a present non-array recommendations value is coerced into a one-element
list (itself defaulted when falsy). -/
theorem primary_parse_fields (response : String)
    (decode : String → Option (List (String × JVal)))
    (obj : List (String × JVal))
    (h : jsonSpan response >>= decode = some obj) :
    (parseClaudeResponse response decode).analysis_type = "AI-Powered" ∧
    (∀ v, getField obj "correctness_score" = some v → jsTruthy v = true →
      (parseClaudeResponse response decode).correctness_score = v) ∧
    ((getField obj "correctness_score").all (fun v => !jsTruthy v) = true →
      (parseClaudeResponse response decode).correctness_score = JVal.jstr "N/A") ∧
    (∀ v, getField obj "completeness_score" = some v → jsTruthy v = true →
      (parseClaudeResponse response decode).completeness_score = v) ∧
    ((getField obj "completeness_score").all (fun v => !jsTruthy v) = true →
      (parseClaudeResponse response decode).completeness_score = JVal.jstr "N/A") ∧
    (∀ v, getField obj "risk_level" = some v → jsTruthy v = true →
      (parseClaudeResponse response decode).risk_level = v) ∧
    ((getField obj "risk_level").all (fun v => !jsTruthy v) = true →
      (parseClaudeResponse response decode).risk_level = JVal.jstr "UNKNOWN") ∧
    (∀ v, getField obj "missing_requirements" = some v → jsTruthy v = true →
      (parseClaudeResponse response decode).missing_requirements = v) ∧
    ((getField obj "missing_requirements").all (fun v => !jsTruthy v) = true →
      (parseClaudeResponse response decode).missing_requirements =
        JVal.jstr "Unable to determine") ∧
    (∀ v, getField obj "implementation_quality" = some v → jsTruthy v = true →
      (parseClaudeResponse response decode).implementation_quality = v) ∧
    ((getField obj "implementation_quality").all (fun v => !jsTruthy v) = true →
      (parseClaudeResponse response decode).implementation_quality =
        JVal.jstr "Not assessed") ∧
    (∀ xs, getField obj "recommendations" = some (JVal.jarr xs) →
      (parseClaudeResponse response decode).recommendations = JVal.jarr xs) ∧
    (∀ v, getField obj "recommendations" = some v → (∀ xs, v ≠ JVal.jarr xs) →
      jsTruthy v = true →
      (parseClaudeResponse response decode).recommendations = JVal.jarr [v]) ∧
    (getField obj "recommendations" = none →
      (parseClaudeResponse response decode).recommendations =
        JVal.jarr [JVal.jstr "No specific recommendations"]) := by
  have hp : parseClaudeResponse response decode = primaryParse obj := by
    unfold parseClaudeResponse
    rw [h]
  rw [hp]
  refine ⟨rfl, ?_, ?_, ?_, ?_, ?_, ?_, ?_, ?_, ?_, ?_, ?_, ?_, ?_⟩
  · exact fun v hv ht => fieldOr_truthy obj _ _ v hv ht
  · exact fun hall => fieldOr_falsy obj _ _ hall
  · exact fun v hv ht => fieldOr_truthy obj _ _ v hv ht
  · exact fun hall => fieldOr_falsy obj _ _ hall
  · exact fun v hv ht => fieldOr_truthy obj _ _ v hv ht
  · exact fun hall => fieldOr_falsy obj _ _ hall
  · exact fun v hv ht => fieldOr_truthy obj _ _ v hv ht
  · exact fun hall => fieldOr_falsy obj _ _ hall
  · exact fun v hv ht => fieldOr_truthy obj _ _ v hv ht
  · exact fun hall => fieldOr_falsy obj _ _ hall
  · intro xs hg
    show (match getField obj "recommendations" with
      | some (.jarr xs) => JVal.jarr xs
      | some v => .jarr [if jsTruthy v then v else .jstr "No specific recommendations"]
      | none => .jarr [.jstr "No specific recommendations"]) = JVal.jarr xs
    rw [hg]
  · intro v hg hne ht
    show (match getField obj "recommendations" with
      | some (.jarr xs) => JVal.jarr xs
      | some v => .jarr [if jsTruthy v then v else .jstr "No specific recommendations"]
      | none => .jarr [.jstr "No specific recommendations"]) = JVal.jarr [v]
    rw [hg]
    cases v with
    | jarr xs => exact absurd rfl (hne xs)
    | jnull => exact absurd ht (by decide)
    | jbool b => simp [ht]
    | jnum n => simp [ht]
    | jstr s => simp [ht]
    | jobj fs => simp [ht]
  · intro hg
    show (match getField obj "recommendations" with
      | some (.jarr xs) => JVal.jarr xs
      | some v => .jarr [if jsTruthy v then v else .jstr "No specific recommendations"]
      | none => .jarr [.jstr "No specific recommendations"]) = _
    rw [hg]

/-- Decoded object for the C5 witness: all six fields present and truthy. -/
def objC5w : List (String × JVal) :=
  [("correctness_score", .jnum 7), ("completeness_score", .jnum 8),
   ("risk_level", .jstr "LOW"), ("missing_requirements", .jstr "None"),
   ("implementation_quality", .jstr "solid"),
   ("recommendations", .jarr [.jstr "a", .jstr "b"])]

/-- **C5 witness**: a decodable payload with truthy fields is extracted as
given and tagged model-based. -/
theorem primary_parse_fields_witness :
    (parseClaudeResponse "{}" (fun _ => some objC5w)).correctness_score = JVal.jnum 7 ∧
    (parseClaudeResponse "{}" (fun _ => some objC5w)).recommendations =
      JVal.jarr [JVal.jstr "a", JVal.jstr "b"] ∧
    (parseClaudeResponse "{}" (fun _ => some objC5w)).analysis_type = "AI-Powered" := by
  obtain ⟨hty, hct, -, -, -, -, -, -, -, -, -, hrec, -, -⟩ :=
    primary_parse_fields "{}" (fun _ => some objC5w) objC5w rfl
  exact ⟨hct (JVal.jnum 7) rfl rfl, hrec [JVal.jstr "a", JVal.jstr "b"] rfl, hty⟩

theorem find?_marker_first (pre : List GHComment) (c : GHComment)
    (post : List GHComment) (hpre : ∀ x ∈ pre, isMarkerComment x = false)
    (hc : isMarkerComment c = true) :
    (pre ++ c :: post).find? isMarkerComment = some c := by
  induction pre with
  | nil => simp [List.find?, hc]
  | cons x xs ih =>
    have hx : isMarkerComment x = false := hpre x (List.mem_cons_self x xs)
    rw [List.cons_append]
    rw [List.find?]
    rw [hx]
    exact ih (fun y hy => hpre y (List.mem_cons_of_mem x hy))

theorem postOrUpdate_ok_reduction (prNumber : Nat) (comment : String)
    (comments : List GHComment) (updRes crtRes : Transport Unit) :
    postOrUpdateComment prNumber comment true (.ok comments) updRes crtRes =
      (match comments.find? isMarkerComment with
        | some c =>
          match updRes with
          | .ok _ => (true, [CommentOp.listComments, CommentOp.update c.id comment])
          | .err _ => (false, [CommentOp.listComments, CommentOp.update c.id comment])
        | none =>
          match crtRes with
          | .ok _ => (true, [CommentOp.listComments, CommentOp.create prNumber comment])
          | .err _ => (false, [CommentOp.listComments, CommentOp.create prNumber comment])) :=
  rfl

/-- **C8.**  With `updateExisting = true`: if the listed comments contain a
`Bot`-authored comment whose body has the marker, the first such comment is
edited in place (a single `update` on its id with the full new body) and no
`create` is issued, succeeding iff the update transport succeeds; if no
comment matches, a `create` is issued; with `updateExisting = false` only a
`create` is issued; and a failed listing is caught, returning `false`
(never raising) with no comment created. -/
theorem postOrUpdateComment_spec (prNumber : Nat) (comment : String)
    (updateExisting : Bool) (listRes : Transport (List GHComment))
    (updRes crtRes : Transport Unit) :
    (∀ pre c post, updateExisting = true →
      listRes = Transport.ok (pre ++ c :: post) →
      (∀ x ∈ pre, isMarkerComment x = false) → isMarkerComment c = true →
      ((postOrUpdateComment prNumber comment updateExisting listRes updRes crtRes).2 =
          [CommentOp.listComments, CommentOp.update c.id comment] ∧
        (∀ p b, CommentOp.create p b ∉
          (postOrUpdateComment prNumber comment updateExisting listRes updRes crtRes).2) ∧
        ((postOrUpdateComment prNumber comment updateExisting listRes updRes crtRes).1 = true ↔
          updRes = Transport.ok ()))) ∧
    (∀ comments, updateExisting = true → listRes = Transport.ok comments →
      comments.find? isMarkerComment = none →
      ((postOrUpdateComment prNumber comment updateExisting listRes updRes crtRes).2 =
          [CommentOp.listComments, CommentOp.create prNumber comment] ∧
        ((postOrUpdateComment prNumber comment updateExisting listRes updRes crtRes).1 = true ↔
          crtRes = Transport.ok ()))) ∧
    (updateExisting = false →
      ((postOrUpdateComment prNumber comment updateExisting listRes updRes crtRes).2 =
          [CommentOp.create prNumber comment] ∧
        ((postOrUpdateComment prNumber comment updateExisting listRes updRes crtRes).1 = true ↔
          crtRes = Transport.ok ()))) ∧
    (∀ st, updateExisting = true → listRes = Transport.err st →
      postOrUpdateComment prNumber comment updateExisting listRes updRes crtRes =
        (false, [CommentOp.listComments])) := by
  refine ⟨?_, ?_, ?_, ?_⟩
  · intro pre c post hue hlist hpre hc
    subst hue
    subst hlist
    rw [postOrUpdate_ok_reduction, find?_marker_first pre c post hpre hc]
    cases updRes with
    | ok u =>
      cases u
      exact ⟨rfl, by simp, by simp⟩
    | err e =>
      refine ⟨rfl, by simp, ?_⟩
      simp only [Bool.false_eq_true, false_iff]
      intro hx
      exact Transport.noConfusion hx
  · intro comments hue hlist hnone
    subst hue
    subst hlist
    rw [postOrUpdate_ok_reduction, hnone]
    cases crtRes with
    | ok u =>
      cases u
      exact ⟨rfl, by simp⟩
    | err e =>
      refine ⟨rfl, ?_⟩
      simp only [Bool.false_eq_true, false_iff]
      intro hx
      exact Transport.noConfusion hx
  · intro hue
    subst hue
    have hred : postOrUpdateComment prNumber comment false listRes updRes crtRes =
        (match crtRes with
          | .ok _ => (true, [CommentOp.create prNumber comment])
          | .err _ => (false, [CommentOp.create prNumber comment])) := rfl
    rw [hred]
    cases crtRes with
    | ok u =>
      cases u
      exact ⟨rfl, by simp⟩
    | err e =>
      refine ⟨rfl, ?_⟩
      simp only [Bool.false_eq_true, false_iff]
      intro hx
      exact Transport.noConfusion hx
  · intro st hue hlist
    subst hue
    subst hlist
    rfl

/-- Non-matching comment for the C8 witness (human-authored). -/
def ghcA : GHComment := { id := 1, userType := "User", body := "hello" }

/-- Matching bot comment for the C8 witness. -/
def ghcB : GHComment :=
  { id := 2, userType := "Bot",
    body := "## 📊 PR Issue Correctness Analysis ..." }

/-- **C8 witness**: with an existing marker comment the handler edits
comment id 2 in place and creates nothing; the update transport succeeds,
so it reports `true`. -/
theorem postOrUpdateComment_spec_witness :
    (postOrUpdateComment 5 "new body" true (.ok [ghcA, ghcB]) (.ok ())
        (.err "x")).2 = [CommentOp.listComments, CommentOp.update 2 "new body"] ∧
    (postOrUpdateComment 5 "new body" true (.ok [ghcA, ghcB]) (.ok ())
        (.err "x")).1 = true := by
  obtain ⟨hfound, -, -, -⟩ :=
    postOrUpdateComment_spec 5 "new body" true (.ok [ghcA, ghcB]) (.ok ()) (.err "x")
  obtain ⟨htrace, -, hret⟩ :=
    hfound [ghcA] ghcB [] rfl rfl (by decide) (by decide)
  exact ⟨htrace, hret.mpr rfl⟩

/-- **C9 counterexample.**  The claim says a failed PR-metadata fetch makes
the process exit non-zero.  The analyzer does surface the Failure with the
transport's status text, but `main` only logs failure outputs and
`return`s: the process exit status is 0. -/
theorem fetch_failure_exit_code_cex :
    analyzePR (.err "Not Found") (fun _ => none) (.ok []) false (.err "")
        (fun _ => none) =
      Except.error "Failed to fetch PR data: Not Found" ∧
    (mainRun (analyzePR (.err "Not Found") (fun _ => none) (.ok []) false
        (.err "") (fun _ => none)) true false).exitCode = 0 :=
  ⟨rfl, rfl⟩

/-- **C9 (amended).**  If fetching the PR's own metadata returns a
non-success transport response, `analyzePR` surfaces a Failure whose error
message carries the transport's status text, and `main` emits failure
outputs (`success=false`, risk `UNKNOWN`, comment not posted) and returns —
the process exits 0, not non-zero (a non-zero exit occurs only for missing
environment variables or an exception escaping `main`). -/
theorem fetch_failure_outputs (st : String) (issueFetch : Nat → Option Issue)
    (filesFetch : Transport (List RawFile)) (hasApiKey : Bool)
    (claudeResp : Transport String)
    (decode : String → Option (List (String × JVal)))
    (shouldComment postOutcome : Bool) :
    analyzePR (.err st) issueFetch filesFetch hasApiKey claudeResp decode =
      Except.error ("Failed to fetch PR data: " ++ st) ∧
    strIncludes ("Failed to fetch PR data: " ++ st) st = true ∧
    mainRun (analyzePR (.err st) issueFetch filesFetch hasApiKey claudeResp decode)
        shouldComment postOutcome =
      { exitCode := 0, outSuccess := false, outRisk := JVal.jstr "UNKNOWN",
        outCommentPosted := false } := by
  refine ⟨rfl, ?_, rfl⟩
  unfold strIncludes
  have hsplit : ("Failed to fetch PR data: " ++ st).toList =
      "Failed to fetch PR data: ".toList ++ st.toList := by
    show (("Failed to fetch PR data: " ++ st).data = _)
    rw [String.data_append]
    rfl
  rw [hsplit]
  exact listContains_append_self _ _

/-- **C10.**  The model-response parser is a total function: a failed (or
absent) JSON decode falls through to the text fallback, and in the fallback
every unmatched field resolves to an explicit sentinel or absent value —
`'UNKNOWN'` for the risk level, `null` for unmatched scores and narrative
sections — with the parsed-text tag set; nothing crashes the run. -/
theorem parser_total_sentinels (response : String)
    (decode : String → Option (List (String × JVal))) :
    (jsonSpan response >>= decode = none →
      parseClaudeResponse response decode = fallbackParse response) ∧
    (extractScore response "CORRECTNESS_SCORE" = none →
      (fallbackParse response).correctness_score = JVal.jnull) ∧
    (extractScore response "COMPLETENESS_SCORE" = none →
      (fallbackParse response).completeness_score = JVal.jnull) ∧
    (firstSome matchRisk response.toList = none →
      (fallbackParse response).risk_level = JVal.jstr "UNKNOWN") ∧
    (extractSection response "MISSING_REQUIREMENTS" = none →
      (fallbackParse response).missing_requirements = JVal.jnull) ∧
    (extractSection response "IMPLEMENTATION_QUALITY" = none →
      (fallbackParse response).implementation_quality = JVal.jnull) ∧
    (fallbackParse response).analysis_type = "AI-Powered (Parsed)" := by
  refine ⟨?_, ?_, ?_, ?_, ?_, ?_, rfl⟩
  · intro h
    unfold parseClaudeResponse
    rw [h]
  · intro h
    show jnumOpt (extractScore response "CORRECTNESS_SCORE") = JVal.jnull
    rw [h]
    rfl
  · intro h
    show jnumOpt (extractScore response "COMPLETENESS_SCORE") = JVal.jnull
    rw [h]
    rfl
  · intro h
    show JVal.jstr (extractRiskLevel response) = JVal.jstr "UNKNOWN"
    unfold extractRiskLevel
    rw [h]
  · intro h
    show jstrOpt (extractSection response "MISSING_REQUIREMENTS") = JVal.jnull
    rw [h]
    rfl
  · intro h
    show jstrOpt (extractSection response "IMPLEMENTATION_QUALITY") = JVal.jnull
    rw [h]
    rfl

/-- **C10 witness**: on plain prose with no JSON payload and no labels, the
parser returns the fallback record with all sentinels. -/
theorem parser_total_sentinels_witness :
    parseClaudeResponse "hello there" (fun _ => none) =
      fallbackParse "hello there" ∧
    (fallbackParse "hello there").correctness_score = JVal.jnull ∧
    (fallbackParse "hello there").risk_level = JVal.jstr "UNKNOWN" ∧
    (fallbackParse "hello there").missing_requirements = JVal.jnull ∧
    (fallbackParse "hello there").analysis_type = "AI-Powered (Parsed)" := by
  obtain ⟨h1, h2, -, h4, h5, -, h7⟩ :=
    parser_total_sentinels "hello there" (fun _ => none)
  exact ⟨h1 rfl, h2 rfl, h4 rfl, h5 rfl, h7⟩

end PRChecker
